import Mathlib

/-!
Verification of the signal-detection and trade-simulation core of the
trading-strategy repository.  The JavaScript sources are shallowly embedded:
prices are rationals, JS `undefined` is `Option.none`, the external
`technicalindicators` library (an out-of-scope collaborator per the spec) is
a parameter supplying already-computed numeric series, and each strategy or
backtest loop is translated into an executable Lean function.
-/

/-- Market candle as built by the loaders: open, high, low, close, volume. -/
structure Candle where
  open_ : ℚ
  high : ℚ
  low : ℚ
  close : ℚ
  volume : ℚ
deriving DecidableEq

/-- Trade direction as held in the strategies' `direction` local variable
(the JS value is the string UP or DOWN; `null` is modelled as `Option.none`). -/
inductive Dir
  | up
  | down
deriving DecidableEq

/-- Signal field values: the JS strings UP, DOWN and NONE. -/
inductive Sig
  | UP
  | DOWN
  | NONE
deriving DecidableEq

/-- Conversion of a detected direction into the signal field. -/
def Dir.toSig : Dir → Sig
  | .up => Sig.UP
  | .down => Sig.DOWN

/-- String rendering of a direction, used in the reason text. -/
def Dir.str : Dir → String
  | .up => "UP"
  | .down => "DOWN"

/-- Signal object returned by `psarSignal` and `psarAdxSignal`. -/
structure SignalResult where
  signal : Sig
  confidence : ℚ
  reason : String
  skipped : Bool
deriving DecidableEq

/-- The neutral result object both strategy functions initialise and return
when no trade should be taken. -/
def neutralSignal : SignalResult := ⟨Sig.NONE, 0, "", true⟩

/-- JS comparison `a <= b` where `b` may be `undefined` (then false). -/
def optLe (a : ℚ) (b : Option ℚ) : Bool :=
  match b with
  | some x => decide (a ≤ x)
  | none => false

/-- JS comparison `a >= b` where `b` may be `undefined` (then false). -/
def optGe (a : ℚ) (b : Option ℚ) : Bool :=
  match b with
  | some x => decide (a ≥ x)
  | none => false

/-- JS comparison `a < b` where `b` may be `undefined` (then false). -/
def optLt (a : ℚ) (b : Option ℚ) : Bool :=
  match b with
  | some x => decide (a < x)
  | none => false

/-- JS comparison `a > b` where `b` may be `undefined` (then false). -/
def optGt (a : ℚ) (b : Option ℚ) : Bool :=
  match b with
  | some x => decide (a > x)
  | none => false

/-- Left-padding with `undefined` up to the bar count: embeds the loops
`while (arr.length < candles.length) arr.unshift(undefined)` used for the
EMA, ADX, SMA and Stochastic series across the strategy and backtest files. -/
def padNone (xs : List ℚ) (n : ℕ) : List (Option ℚ) :=
  List.replicate (n - xs.length) none ++ xs.map some

/-- Left-padding with the series' first element: embeds the PSAR padding loop
`for (let i = 0; i < diff; i++) psarArr.unshift(psarArr[0])` of
`psarStrategy.js`, `psarAdxStrategy.js` and `backtest_sma_psar_stoch.js`
(every inserted copy equals the original first element; an empty series
yields `undefined` copies, hence the `head?`). -/
def padFirst (xs : List ℚ) (n : ℕ) : List (Option ℚ) :=
  List.replicate (n - xs.length) xs.head? ++ xs.map some

/-- JS array read `series[i]`: the element when in range, else `undefined`. -/
def value_at (series : List (Option ℚ)) (i : ℕ) : Option ℚ :=
  series.getD i none

/-- Flip detector shared by the strategy and backtest files: translated from
`if (closePrev <= psarPrev && closeCurr > psarCurr) direction = UP;`
`if (closePrev >= psarPrev && closeCurr < psarCurr) direction = (direction == UP ? null : DOWN);`
with the PSAR values possibly `undefined`. -/
def flipDir (closePrev closeCurr : ℚ) (psarPrev psarCurr : Option ℚ) : Option Dir :=
  let d0 : Option Dir :=
    if optLe closePrev psarPrev && optGt closeCurr psarCurr then some Dir.up else none
  if optGe closePrev psarPrev && optLt closeCurr psarCurr then
    (if d0 = some Dir.up then none else some Dir.down)
  else d0

/-- Next-bar continuation check:
`direction == UP ? closeNext > closeCurr : closeNext < closeCurr`. -/
def continuationOk (d : Dir) (closeNext closeCurr : ℚ) : Bool :=
  match d with
  | .up => decide (closeNext > closeCurr)
  | .down => decide (closeNext < closeCurr)

/-- EMA200 trend filter: rejects when the EMA value is defined and the close
is on the wrong side of it; an `undefined` EMA value never rejects
(`if (ema200 !== undefined) { ... }` in the sources). -/
def emaRejects (d : Dir) (closeCurr : ℚ) (ema200 : Option ℚ) : Bool :=
  match ema200 with
  | some e =>
    match d with
    | .up => decide (closeCurr < e)
    | .down => decide (closeCurr > e)
  | none => false

/-- ADX strength filter: rejects when the ADX value is defined and below the
threshold; an `undefined` ADX value never rejects
(`if (adxVal !== undefined && adxVal < adxThreshold) ...`). -/
def adxRejects (adx : Option ℚ) (threshold : ℚ) : Bool :=
  match adx with
  | some a => decide (a < threshold)
  | none => false

/-- Range filter rejection test at bar `i`: translated from the
`rangeMultiplier > 0` block; when active and `i ≥ 14`, rejects iff the
current bar's high-low range is below the mean range of the 14 bars ending
at `i` times the multiplier. -/
def rangeRejects (highs lows : List ℚ) (rangeMult : ℚ) (i : ℕ) : Bool :=
  if 0 < rangeMult then
    if 14 ≤ i then
      let sumRange := ((List.range' (i - 14 + 1) 14).map
        (fun j => highs.getD j 0 - lows.getD j 0)).sum
      let avgRange := sumRange / 14
      let currRange := highs.getD i 0 - lows.getD i 0
      decide (currRange < avgRange * rangeMult)
    else false
  else false

/-- Side of the close relative to the (aligned) PSAR at bar `j`:
`closes[j] > psarArr[j] ? above : below`, `above` being `true`. -/
def sideAbove (closes : List ℚ) (psarArr : List (Option ℚ)) (j : ℕ) : Bool :=
  optGt (closes.getD j 0) (psarArr.getD j none)

/-- Backward walk of the persistence block in `psarAdxStrategy.js`
(`for (let j = crossIdx - 1; j >= 0; j--) { ...; barsSinceFlip++; if (side !== currentSide) break; }`):
starting at bar `j` and walking down to bar 0, every visited bar is counted
and the walk stops right after the first bar whose side differs from
`currentSide`. -/
def barsSinceFlipWalk (sideAt : ℕ → Bool) (currentSide : Bool) : ℕ → ℕ
  | 0 => 1
  | j + 1 =>
    if sideAt (j + 1) = currentSide then 1 + barsSinceFlipWalk sideAt currentSide j else 1

/-- External indicator library (`technicalindicators` plus the repository's
indicator helpers), an out-of-scope collaborator per the spec: the core
consumes the computed series and performs its own alignment.  `psar` takes
step, max, highs, lows; `ema` takes period and values; `adx` takes period,
highs, lows, closes and yields the `adx` component of each result object. -/
structure IndicatorLib where
  psar : ℚ → ℚ → List ℚ → List ℚ → List ℚ
  ema : ℕ → List ℚ → List ℚ
  adx : ℕ → List ℚ → List ℚ → List ℚ → List ℚ

/-- Close prices array: `candles.map(c => c.close)`. -/
def closesOf (candles : List Candle) : List ℚ := candles.map (·.close)

/-- High prices array: `candles.map(c => c.high)`. -/
def highsOf (candles : List Candle) : List ℚ := candles.map (·.high)

/-- Low prices array: `candles.map(c => c.low)`. -/
def lowsOf (candles : List Candle) : List ℚ := candles.map (·.low)

/-- Aligned PSAR series of the strategy files: library output padded to the
bar count by replicating its first element. -/
def psarAlignedOf (lib : IndicatorLib) (step mx : ℚ) (highs lows : List ℚ) (n : ℕ) :
    List (Option ℚ) :=
  padFirst (lib.psar step mx highs lows) n

/-- Aligned EMA200 series: library output padded to the bar count with
`undefined`. -/
def emaAlignedOf (lib : IndicatorLib) (closes : List ℚ) (n : ℕ) : List (Option ℚ) :=
  padNone (lib.ema 200 closes) n

/-- Aligned ADX series: library output padded to the bar count with objects
whose `adx` component is `undefined`. -/
def adxAlignedOf (lib : IndicatorLib) (highs lows closes : List ℚ) (n : ℕ) :
    List (Option ℚ) :=
  padNone (lib.adx 14 highs lows closes) n

/-- Configuration record of `psarAdxSignal` after the `??` defaults of
`psarAdxStrategy.js` have been applied. -/
structure AdxConfig where
  psarStep : ℚ
  psarMax : ℚ
  adxThreshold : ℚ
  minFlips : ℕ
  rangeMultiplier : ℚ
deriving DecidableEq

/-- Default configuration: step 0.02, max 0.2, ADX threshold 20, minFlips 1,
range multiplier 0. -/
def AdxConfig.default : AdxConfig := ⟨1/50, 1/5, 20, 1, 0⟩

/-- Body of `psarAdxSignal` after the candle array has been destructured into
the closes, highs and lows arrays and the bar count `n`. -/
def psarAdxSignalArrays (lib : IndicatorLib) (closes highs lows : List ℚ) (n : ℕ)
    (cfg : AdxConfig) : SignalResult :=
  if n < 3 then neutralSignal else
  let psarArr := psarAlignedOf lib cfg.psarStep cfg.psarMax highs lows n
  let prevClose := closes.getD (n - 3) 0
  let crossClose := closes.getD (n - 2) 0
  let latestClose := closes.getD (n - 1) 0
  match flipDir prevClose crossClose (psarArr.getD (n - 3) none) (psarArr.getD (n - 2) none) with
  | none => neutralSignal
  | some direction =>
    if continuationOk direction latestClose crossClose then
      if rangeRejects highs lows cfg.rangeMultiplier (n - 2) then neutralSignal
      else if 1 < cfg.minFlips ∧
          barsSinceFlipWalk (sideAbove closes psarArr)
            (optGt crossClose (psarArr.getD (n - 2) none)) (n - 2 - 1) < cfg.minFlips then
        neutralSignal
      else if emaRejects direction crossClose (value_at (emaAlignedOf lib closes n) (n - 2)) then
        neutralSignal
      else
        let adxVal := value_at (adxAlignedOf lib highs lows closes n) (n - 2)
        if adxRejects adxVal cfg.adxThreshold then neutralSignal
        else
          ⟨direction.toSig,
           min (70 + (match adxVal with
              | some a => min 30 ((a - cfg.adxThreshold) * 2)
              | none => 0) + (if 0 < cfg.rangeMultiplier then 5 else 0)) 100,
           "PSAR cross " ++ direction.str ++ " with continuation, ADX " ++
             (match adxVal with | some a => toString a | none => "n/a") ++ ", EMA200 filter",
           false⟩
    else neutralSignal

/-- Signal function of `psarAdxStrategy.js`: PSAR flip at the second-last bar,
confirmed by the latest bar, filtered by range, persistence, EMA200 and ADX. -/
def psarAdxSignal (lib : IndicatorLib) (candles : List Candle) (cfg : AdxConfig) : SignalResult :=
  psarAdxSignalArrays lib (closesOf candles) (highsOf candles) (lowsOf candles)
    candles.length cfg

/-- Body of `psarSignal` after the candle array has been destructured. -/
def psarSignalArrays (lib : IndicatorLib) (closes highs lows : List ℚ) (n : ℕ) : SignalResult :=
  if n < 3 then neutralSignal else
  let psar := padFirst (lib.psar (1/50) (1/5) highs lows) n
  match flipDir (closes.getD (n - 3) 0) (closes.getD (n - 2) 0)
      (psar.getD (n - 3) none) (psar.getD (n - 2) none) with
  | none => neutralSignal
  | some direction =>
    if continuationOk direction (closes.getD (n - 1) 0) (closes.getD (n - 2) 0) then
      if emaRejects direction (closes.getD (n - 2) 0)
          (value_at (emaAlignedOf lib closes n) (n - 2)) then neutralSignal
      else
        ⟨direction.toSig, 80,
         "PSAR cross " ++ direction.str ++ " with continuation and EMA200 filter", false⟩
    else neutralSignal

/-- Signal function of `psarStrategy.js`: PSAR flip, continuation, EMA200
filter, fixed confidence 80. -/
def psarSignal (lib : IndicatorLib) (candles : List Candle) : SignalResult :=
  psarSignalArrays lib (closesOf candles) (highsOf candles) (lowsOf candles) candles.length

/-- Decides whether a resolved batch trade is a win:
`direction === UP ? exitPrice > entryPrice : exitPrice < entryPrice`. -/
def isWin (d : Dir) (entryPrice exitPrice : ℚ) : Bool :=
  if d = Dir.up then decide (exitPrice > entryPrice) else decide (exitPrice < entryPrice)

/-- State threaded through the `backtest_psar_adx.js` loop. -/
structure BTState where
  total : ℕ
  correct : ℕ
  barsSinceFlip : ℕ
deriving DecidableEq

/-- Result object of `backtestStrategy`. -/
structure BTResult where
  total : ℕ
  correct : ℕ
  accuracy : ℚ
deriving DecidableEq

/-- Index list of the loop
`for (let i = 1; i < candles.length - (expiryBars + 1); i++)`. -/
def loopIndices (n expiryBars : ℕ) : List ℕ :=
  List.range' 1 (n - (expiryBars + 1) - 1)

/-- One iteration of the `backtest_psar_adx.js` loop at bar `i`.  The raw
library arrays are indexed directly (this file does not pad); an undefined
PSAR value at `i-1` or `i` only advances the flip counter. -/
def btStep (closes highs lows psarRaw emaRaw adxRaw : List ℚ) (adxThreshold : ℚ)
    (minFlips : ℕ) (rangeMultiplier : ℚ) (expiryBars : ℕ) (st : BTState) (i : ℕ) : BTState :=
  match psarRaw[i - 1]?, psarRaw[i]? with
  | some psarPrev, some psarCurr =>
    let closePrev := closes.getD (i - 1) 0
    let closeCurr := closes.getD i 0
    let closeNext := closes.getD (i + 1) 0
    match flipDir closePrev closeCurr (some psarPrev) (some psarCurr) with
    | none => { st with barsSinceFlip := st.barsSinceFlip + 1 }
    | some direction =>
      if continuationOk direction closeNext closeCurr then
        if st.barsSinceFlip < minFlips then { st with barsSinceFlip := 0 }
        else
          let st0 : BTState := { st with barsSinceFlip := 0 }
          if rangeRejects highs lows rangeMultiplier i then st0
          else if emaRejects direction closeCurr emaRaw[i]? then st0
          else if adxRejects adxRaw[i]? adxThreshold then st0
          else
            let entryPrice := closes.getD (i + 1) 0
            let exitPrice := closes.getD (i + 1 + expiryBars) 0
            if isWin direction entryPrice exitPrice then
              { st0 with total := st0.total + 1, correct := st0.correct + 1 }
            else
              { st0 with total := st0.total + 1 }
      else { st with barsSinceFlip := st.barsSinceFlip + 1 }
  | _, _ => { st with barsSinceFlip := st.barsSinceFlip + 1 }

/-- The whole `backtest_psar_adx.js` loop plus the final result object,
without the insufficient-data guard. -/
def backtestCore (lib : IndicatorLib) (candles : List Candle) (expiryBars : ℕ)
    (adxThreshold : ℚ) (minFlips : ℕ) (psarStep psarMax rangeMultiplier : ℚ) : BTResult :=
  let highs := highsOf candles
  let lows := lowsOf candles
  let closes := closesOf candles
  let psarRaw := lib.psar psarStep psarMax highs lows
  let emaRaw := lib.ema 200 closes
  let adxRaw := lib.adx 14 highs lows closes
  let final := (loopIndices candles.length expiryBars).foldl
    (btStep closes highs lows psarRaw emaRaw adxRaw adxThreshold minFlips rangeMultiplier
      expiryBars) ⟨0, 0, 0⟩
  ⟨final.total, final.correct,
   if final.total > 0 then ((final.correct : ℚ) / (final.total : ℚ)) * 100 else 0⟩

/-- `backtestStrategy` of `backtest_psar_adx.js`: throws on fewer than 250
candles, otherwise runs the loop. -/
def backtestStrategy (lib : IndicatorLib) (candles : List Candle) (expiryBars : ℕ)
    (adxThreshold : ℚ) (minFlips : ℕ) (psarStep psarMax rangeMultiplier : ℚ) :
    Except String BTResult :=
  if candles.length < 250 then Except.error "Insufficient data for PSAR+ADX strategy"
  else Except.ok (backtestCore lib candles expiryBars adxThreshold minFlips psarStep psarMax
    rangeMultiplier)

/-- Indicator collaborators of `backtest_triple_oscillator.js`: `calculateEMA`,
`calculateRSI` and `calculateStochastic` live in the repository's indicator
module (not part of the core; the spec places all indicator numerics in an
external collaborator), `CCI` comes from `technicalindicators`.  `stoch`
returns the pair of `%K` and `%D` arrays; `cci` takes highs, lows, closes
with its period fixed at 14 by the call site. -/
structure OscLib where
  ema : List ℚ → ℕ → List ℚ
  rsi : List ℚ → List ℚ
  stoch : List Candle → List ℚ × List ℚ
  cci : List ℚ → List ℚ → List ℚ → List ℚ

/-- JS read `arr[arr.length - 1 - k]`: the k-th element from the end, or
`undefined` when the array is too short. -/
def atFromEnd (xs : List ℚ) (k : ℕ) : Option ℚ :=
  xs.reverse[k]?

/-- Open trade record pushed by the triple-oscillator loop. -/
structure Trade where
  entryIndex : ℕ
  expiryIndex : ℕ
  direction : Sig
  entryPrice : ℚ
deriving DecidableEq

/-- Resolution test of the triple-oscillator loop:
`(trade.direction === UP && close > entry) || (trade.direction === DOWN && close < entry)`. -/
def tradeCorrect (t : Trade) (closeNow : ℚ) : Bool :=
  decide ((t.direction = Sig.UP ∧ closeNow > t.entryPrice) ∨
    (t.direction = Sig.DOWN ∧ closeNow < t.entryPrice))

/-- Signal decision of the triple-oscillator loop for the current candle,
computed from the accumulated history exactly as in the source: all eight
oscillator readings must be defined, the oversold/overbought thresholds and
the turning test must hold, and the close must be on the right side of the
EMA200 (an undefined EMA compares false). -/
def tripleSignal (lib : OscLib) (history : List Candle) (candle : Candle) : Sig :=
  let closes := history.map (·.close)
  let highs := history.map (·.high)
  let lows := history.map (·.low)
  let ema200 := atFromEnd (lib.ema closes 200) 0
  let rsiArr := lib.rsi closes
  let kd := lib.stoch history
  let cciArr := lib.cci highs lows closes
  match atFromEnd rsiArr 0, atFromEnd rsiArr 1, atFromEnd kd.1 0, atFromEnd kd.2 0,
      atFromEnd kd.1 1, atFromEnd kd.2 1, atFromEnd cciArr 0, atFromEnd cciArr 1 with
  | some rsi, some rsiPrev, some stochK, some stochD, some stochKPrev, some stochDPrev,
      some cci, some cciPrev =>
    let oversold := decide (rsi < 35 ∧ stochK < 20 ∧ stochD < 20 ∧ cci < -100)
    let turningUp := decide (rsi > rsiPrev ∧ stochK > stochKPrev ∧ stochD > stochDPrev ∧
      cci > cciPrev)
    let overbought := decide (rsi > 65 ∧ stochK > 80 ∧ stochD > 80 ∧ cci > 100)
    let turningDown := decide (rsi < rsiPrev ∧ stochK < stochKPrev ∧ stochD < stochDPrev ∧
      cci < cciPrev)
    if oversold && turningUp && optGt candle.close ema200 then Sig.UP
    else if overbought && turningDown && optLt candle.close ema200 then Sig.DOWN
    else Sig.NONE
  | _, _, _, _, _, _, _, _ => Sig.NONE

/-- State threaded through the triple-oscillator loop.  `created` counts every
trade ever pushed onto `openTrades` (the Trades-ever-created ledger the spec
talks about); `total` and `correct` are only incremented when a trade
resolves, exactly as in the source. -/
structure TripleState where
  history : List Candle
  openTrades : List Trade
  total : ℕ
  correct : ℕ
  created : ℕ
deriving DecidableEq

/-- One iteration of the triple-oscillator loop at `(i, candle)`: push the
candle onto the history, resolve every open trade whose `expiryIndex` is `i`
(counting it into `total`/`correct`), then — once 200 bars of history exist —
evaluate the signal and push a new trade with entry at `i`, expiry `i + 1`. -/
def tripleStep (lib : OscLib) (st : TripleState) (ic : ℕ × Candle) : TripleState :=
  let i := ic.1
  let candle := ic.2
  let history := st.history ++ [candle]
  let due := st.openTrades.filter (fun t => decide (t.expiryIndex = i))
  let remaining := st.openTrades.filter (fun t => ! decide (t.expiryIndex = i))
  let total := st.total + due.length
  let correct := st.correct + (due.filter (fun t => tradeCorrect t candle.close)).length
  if history.length < 200 then
    { history := history, openTrades := remaining, total := total, correct := correct,
      created := st.created }
  else
    match tripleSignal lib history candle with
    | Sig.NONE =>
      { history := history, openTrades := remaining, total := total, correct := correct,
        created := st.created }
    | s =>
      { history := history,
        openTrades := remaining ++ [⟨i, i + 1, s, candle.close⟩],
        total := total, correct := correct, created := st.created + 1 }

/-- The whole triple-oscillator backtest loop over the loaded data. -/
def tripleBacktest (lib : OscLib) (data : List Candle) : TripleState :=
  data.enum.foldl (tripleStep lib) ⟨[], [], 0, 0, 0⟩

/-- Accuracy printed at the end of the triple-oscillator backtest:
`totalTrades > 0 ? (correctTrades / totalTrades) * 100 : 0`. -/
def tripleAccuracy (st : TripleState) : ℚ :=
  if st.total > 0 then ((st.correct : ℚ) / (st.total : ℚ)) * 100 else 0

/-- Indicator collaborators of the 5-minute trend strategy: `ema` takes period
and values, `adx` takes period, highs, lows, closes and yields the `adx`
component of each result object. -/
structure TrendLib where
  ema : ℕ → List ℚ → List ℚ
  adx : ℕ → List ℚ → List ℚ → List ℚ → List ℚ

/-- Options record of `trendStrategy5m` after destructuring defaults. -/
structure TrendOpts where
  fastLen : ℕ
  slowLen : ℕ
  trendLen : ℕ
  adxLen : ℕ
  adxThreshold : ℚ
deriving DecidableEq

/-- Signal object pushed by `trendStrategy5m`. -/
structure TrendSignal where
  index : ℕ
  direction : Dir
  confidence : ℚ
deriving DecidableEq

/-- Bullish crossover condition of `trendStrategy5m`:
`prevFast <= prevSlow && currFast > currSlow`. -/
def bullishCross (prevFast prevSlow currFast currSlow : ℚ) : Prop :=
  prevFast ≤ prevSlow ∧ currFast > currSlow

/-- Bearish crossover condition of `trendStrategy5m`:
`prevFast >= prevSlow && currFast < currSlow`. -/
def bearishCross (prevFast prevSlow currFast currSlow : ℚ) : Prop :=
  prevFast ≥ prevSlow ∧ currFast < currSlow

instance (a b c d : ℚ) : Decidable (bullishCross a b c d) := by
  unfold bullishCross; exact inferInstance

instance (a b c d : ℚ) : Decidable (bearishCross a b c d) := by
  unfold bearishCross; exact inferInstance

/-- One iteration of the `trendStrategy5m` loop at bar `i`.  The first guard
is the integer test `fastIdx < 1 || slowIdx < 1 || trendIdx < 0 || adxIdx < 0`
written on `i` directly so that the later truncated subtractions are exact;
`isNaN(adx)` cannot hold over the rationals and is dropped. -/
def trendStep (closes fastEma slowEma trendEma adxValues : List ℚ)
    (fastOffset slowOffset trendOffset adxOffset : ℕ) (adxThreshold : ℚ)
    (acc : List TrendSignal) (i : ℕ) : List TrendSignal :=
  if i < fastOffset + 1 ∨ i < slowOffset + 1 ∨ i < trendOffset ∨ i < adxOffset then acc
  else
    let fastIdx := i - fastOffset
    let slowIdx := i - slowOffset
    let trendIdx := i - trendOffset
    let adxIdx := i - adxOffset
    let prevFast := fastEma.getD (fastIdx - 1) 0
    let prevSlow := slowEma.getD (slowIdx - 1) 0
    let currFast := fastEma.getD fastIdx 0
    let currSlow := slowEma.getD slowIdx 0
    let currTrend := trendEma.getD trendIdx 0
    let adx := adxValues.getD adxIdx 0
    let price := closes.getD i 0
    if adx < adxThreshold then acc
    else
      let conf := min ((adx - adxThreshold) / 50 + 1/2) (19/20)
      let acc1 := if bullishCross prevFast prevSlow currFast currSlow ∧ price > currTrend then
        acc ++ [⟨i, Dir.up, conf⟩] else acc
      if bearishCross prevFast prevSlow currFast currSlow ∧ price < currTrend then
        acc1 ++ [⟨i, Dir.down, conf⟩] else acc1

/-- `trendStrategy5m` of the 5-minute trend-following module: EMA crossover
with EMA200 trend filter and ADX threshold, looping `i = 1 .. candles.length - 6`. -/
def trendStrategy5m (lib : TrendLib) (candles : List Candle) (opts : TrendOpts) :
    List TrendSignal :=
  let closes := closesOf candles
  let highs := highsOf candles
  let lows := lowsOf candles
  let fastEma := lib.ema opts.fastLen closes
  let slowEma := lib.ema opts.slowLen closes
  let trendEma := lib.ema opts.trendLen closes
  let adxValues := lib.adx opts.adxLen highs lows closes
  (List.range' 1 (candles.length - 5 - 1)).foldl
    (trendStep closes fastEma slowEma trendEma adxValues
      (candles.length - fastEma.length) (candles.length - slowEma.length)
      (candles.length - trendEma.length) (candles.length - adxValues.length)
      opts.adxThreshold) []

/-- Price fields of a candle: the data the volume-blindness property fixes. -/
def stripVolume (c : Candle) : ℚ × ℚ × ℚ × ℚ :=
  (c.open_, c.high, c.low, c.close)

/-- Candle with a given close and zeroed remaining fields, for concrete runs. -/
def mkC (c : ℚ) : Candle := ⟨0, 0, 0, c, 0⟩

/-- Concrete indicator library for the warm-up scenario: the PSAR series has
one bar of warm-up (two values for three bars), while the EMA200 and ADX
series are still empty, as the real library yields on three bars. -/
def exLib3 : IndicatorLib :=
  ⟨fun _ _ _ _ => [15, 15], fun _ _ => [], fun _ _ _ _ => []⟩

/-- Three candles: close below the PSAR, then a cross above it, then a
confirming higher close. -/
def exCandles3 : List Candle := [mkC 10, mkC 20, mkC 25]

/-- Concrete indicator library whose PSAR is the constant 50 over twelve
bars; EMA200 and ADX are still warming up. -/
def exLib4 : IndicatorLib :=
  ⟨fun _ _ _ _ => List.replicate 12 50, fun _ _ => [], fun _ _ _ _ => []⟩

/-- Twelve candles: ten closes at 40 (below the PSAR of 50), a cross to 60,
and a confirming close at 70. -/
def exCandles4 : List Candle := List.replicate 10 (mkC 40) ++ [mkC 60, mkC 70]

/-- Default configuration with the persistence requirement raised to 2. -/
def cfgK2 : AdxConfig := ⟨1/50, 1/5, 20, 2, 0⟩

/-- Concrete oscillator collaborator making the oversold-and-turning-up
condition hold: RSI 30 then 34, stochastic K and D 10 then 15, CCI -150 then
-120, EMA200 at 99. -/
def exOsc : OscLib :=
  ⟨fun _ _ => [99], fun _ => [30, 34], fun _ => ([10, 15], [10, 15]),
   fun _ _ _ => [-150, -120]⟩

/-- Two hundred candles closing at 100: the signal fires exactly at the last
bar (index 199), the first one with 200 bars of history. -/
def exData : List Candle := List.replicate 200 (mkC 100)

/-- Indicator library returning empty series, for determinism witnesses. -/
def exLibW : IndicatorLib :=
  ⟨fun _ _ _ _ => [], fun _ _ => [], fun _ _ _ _ => []⟩

/-- Three candles with volumes 1, 2, 3. -/
def vc1 : List Candle := [⟨0, 0, 0, 4, 1⟩, ⟨0, 0, 0, 5, 2⟩, ⟨0, 0, 0, 6, 3⟩]

/-- The same three candles with volumes 7, 8, 9. -/
def vc2 : List Candle := [⟨0, 0, 0, 4, 7⟩, ⟨0, 0, 0, 5, 8⟩, ⟨0, 0, 0, 6, 9⟩]

/-- Ten candles closing at 0, for the loop-bounds witness. -/
def exW9 : List Candle := List.replicate 10 (mkC 0)

/-- Reading a some-mapped series with default `undefined` is the raw read. -/
theorem map_some_getD (xs : List ℚ) (k : ℕ) : ((xs.map some).getD k none) = xs[k]? := by
  rw [List.getD_eq_getElem?_getD]
  rcases h : xs[k]? with _ | x
  · have hk : xs.length ≤ k := by
      by_contra hk
      push_neg at hk
      rw [List.getElem?_eq_getElem hk] at h
      exact Option.noConfusion h
    simp [List.getElem?_map, h]
  · simp [List.getElem?_map, h]

/-- C1 (amended): for a series of length M ≤ N, the undefined-padded view
(EMA, ADX, SMA, Stochastic) is undefined before bar N - M and equals
`series[i - (N - M)]` from bar N - M on; the PSAR view is padded with the
series' first value instead, so before bar N - M it equals that first value
(defined whenever the series is non-empty), and from bar N - M on it also
equals `series[i - (N - M)]`. -/
theorem aligner_value_at (xs : List ℚ) (n i : ℕ) (_hlen : xs.length ≤ n) :
    (i < n - xs.length →
      value_at (padNone xs n) i = none ∧ value_at (padFirst xs n) i = xs.head?) ∧
    (n - xs.length ≤ i →
      value_at (padNone xs n) i = xs[i - (n - xs.length)]? ∧
      value_at (padFirst xs n) i = xs[i - (n - xs.length)]?) := by
  constructor
  · intro hi
    constructor
    · unfold value_at padNone
      rw [List.getD_eq_getElem?_getD]
      simp [List.getElem?_append, hi, List.getElem?_replicate]
    · unfold value_at padFirst
      rw [List.getD_eq_getElem?_getD]
      simp [List.getElem?_append, hi, List.getElem?_replicate]
  · intro hi
    have hni : ¬ i < n - xs.length := Nat.not_lt.mpr hi
    constructor
    · unfold value_at padNone
      rw [List.getD_eq_getElem?_getD]
      rw [List.getElem?_append]
      simp only [List.length_replicate, hni, if_false]
      rw [← List.getD_eq_getElem?_getD]
      exact map_some_getD xs (i - (n - xs.length))
    · unfold value_at padFirst
      rw [List.getD_eq_getElem?_getD]
      rw [List.getElem?_append]
      simp only [List.length_replicate, hni, if_false]
      rw [← List.getD_eq_getElem?_getD]
      exact map_some_getD xs (i - (n - xs.length))

/-- Witness for the alignment theorem at series [5, 7], three bars, index 2. -/
theorem aligner_value_at_witness :
    [(5 : ℚ), 7].length ≤ 3 ∧
    (3 - [(5 : ℚ), 7].length ≤ 2 →
      value_at (padNone [(5 : ℚ), 7] 3) 2 = [(5 : ℚ), 7][2 - (3 - [(5 : ℚ), 7].length)]? ∧
      value_at (padFirst [(5 : ℚ), 7] 3) 2 = [(5 : ℚ), 7][2 - (3 - [(5 : ℚ), 7].length)]?) :=
  ⟨by decide, (aligner_value_at [(5 : ℚ), 7] 3 2 (by decide)).2⟩

/-- C1 counterexample: the PSAR series [5, 7] aligned to three bars is
defined at bar 0, which lies before the warm-up boundary N - M = 1, where
the claim demands an undefined value. -/
theorem aligner_psar_pad_counterexample :
    value_at (padFirst [(5 : ℚ), 7] 3) 0 = some 5 ∧ (0 : ℕ) < 3 - [(5 : ℚ), 7].length := by
  decide

/-- C2: the UP-flip and DOWN-flip conditions can never hold together (they
would need the current close to be simultaneously above and below the
current comparator), so the simultaneous case is vacuous; on it the detector
trivially returns UP, and it never returns both directions for one bar. -/
theorem flip_detector_single_direction (closePrev closeCurr : ℚ)
    (psarPrev psarCurr : Option ℚ) :
    (¬ (optLe closePrev psarPrev = true ∧ optGt closeCurr psarCurr = true ∧
        optGe closePrev psarPrev = true ∧ optLt closeCurr psarCurr = true)) ∧
    ((optLe closePrev psarPrev = true ∧ optGt closeCurr psarCurr = true ∧
        optGe closePrev psarPrev = true ∧ optLt closeCurr psarCurr = true) →
      flipDir closePrev closeCurr psarPrev psarCurr = some Dir.up) ∧
    (¬ (flipDir closePrev closeCurr psarPrev psarCurr = some Dir.up ∧
        flipDir closePrev closeCurr psarPrev psarCurr = some Dir.down)) := by
  have himp : ¬ (optLe closePrev psarPrev = true ∧ optGt closeCurr psarCurr = true ∧
      optGe closePrev psarPrev = true ∧ optLt closeCurr psarCurr = true) := by
    rintro ⟨-, h2, -, h4⟩
    cases psarCurr with
    | none => exact Bool.noConfusion h2
    | some x =>
      simp only [optGt, decide_eq_true_eq] at h2
      simp only [optLt, decide_eq_true_eq] at h4
      exact absurd h4 (not_lt.mpr h2.le)
  refine ⟨himp, fun h => absurd h himp, ?_⟩
  rintro ⟨hu, hd⟩
  rw [hu] at hd
  exact Option.noConfusion hd fun h => Dir.noConfusion h

/-- Witness for the flip-detector theorem at concrete values. -/
theorem flip_detector_single_direction_witness :
    (¬ (optLe 1 (some 3) = true ∧ optGt 2 (some 3) = true ∧
        optGe 1 (some 3) = true ∧ optLt 2 (some 3) = true)) ∧
    ((optLe 1 (some 3) = true ∧ optGt 2 (some 3) = true ∧
        optGe 1 (some 3) = true ∧ optLt 2 (some 3) = true) →
      flipDir 1 2 (some 3) (some 3) = some Dir.up) ∧
    (¬ (flipDir 1 2 (some 3) (some 3) = some Dir.up ∧
        flipDir 1 2 (some 3) (some 3) = some Dir.down)) :=
  flip_detector_single_direction 1 2 (some 3) (some 3)

/-- C6: a resolved trade is a WIN exactly when the expiry close is strictly
above the entry for UP, strictly below for DOWN (both in the batch loop's
`isWin` and the triple-oscillator resolution), an unchanged price is a LOSS,
and both reported accuracies are exactly 100 times correct over total when
total is positive and 0 otherwise. -/
theorem trade_outcome_and_accuracy :
    (∀ (d : Dir) (entryPrice exitPrice : ℚ),
      isWin d entryPrice exitPrice = true ↔
        ((d = Dir.up ∧ exitPrice > entryPrice) ∨ (d = Dir.down ∧ exitPrice < entryPrice))) ∧
    (∀ (d : Dir) (p : ℚ), isWin d p p = false) ∧
    (∀ (t : Trade) (c : ℚ), tradeCorrect t c = true ↔
      ((t.direction = Sig.UP ∧ c > t.entryPrice) ∨
        (t.direction = Sig.DOWN ∧ c < t.entryPrice))) ∧
    (∀ (t : Trade), tradeCorrect t t.entryPrice = false) ∧
    (∀ (lib : IndicatorLib) (candles : List Candle) (expiryBars : ℕ) (adxThreshold : ℚ)
        (minFlips : ℕ) (psarStep psarMax rangeMultiplier : ℚ),
      (backtestCore lib candles expiryBars adxThreshold minFlips psarStep psarMax
          rangeMultiplier).accuracy =
        if 0 < (backtestCore lib candles expiryBars adxThreshold minFlips psarStep psarMax
            rangeMultiplier).total then
          100 * ((backtestCore lib candles expiryBars adxThreshold minFlips psarStep psarMax
              rangeMultiplier).correct : ℚ) /
            ((backtestCore lib candles expiryBars adxThreshold minFlips psarStep psarMax
              rangeMultiplier).total : ℚ)
        else 0) ∧
    (∀ (lib : OscLib) (data : List Candle),
      tripleAccuracy (tripleBacktest lib data) =
        if 0 < (tripleBacktest lib data).total then
          100 * ((tripleBacktest lib data).correct : ℚ) /
            ((tripleBacktest lib data).total : ℚ)
        else 0) := by
  refine ⟨?_, ?_, ?_, ?_, ?_, ?_⟩
  · intro d e x
    cases d <;> simp [isWin]
  · intro d p
    cases d <;> simp [isWin]
  · intro t c
    simp [tradeCorrect]
  · intro t
    simp [tradeCorrect]
  · intro lib candles expiryBars adxThreshold minFlips psarStep psarMax rangeMultiplier
    unfold backtestCore
    dsimp only
    simp only [gt_iff_lt]
    split_ifs with h
    · ring
    · rfl
  · intro lib data
    unfold tripleAccuracy
    simp only [gt_iff_lt]
    split_ifs with h
    · ring
    · rfl

/-- C7: the engine never reads the volume field — two candle lists agreeing
on open, high, low and close yield identical signals and identical backtest
results, whatever the indicator collaborator computes. -/
theorem core_volume_blind (lib : IndicatorLib) (c1 c2 : List Candle) (cfg : AdxConfig)
    (expiryBars : ℕ) (adxThreshold : ℚ) (minFlips : ℕ)
    (psarStep psarMax rangeMultiplier : ℚ)
    (h : c1.map stripVolume = c2.map stripVolume) :
    psarSignal lib c1 = psarSignal lib c2 ∧
    psarAdxSignal lib c1 cfg = psarAdxSignal lib c2 cfg ∧
    backtestStrategy lib c1 expiryBars adxThreshold minFlips psarStep psarMax
        rangeMultiplier =
      backtestStrategy lib c2 expiryBars adxThreshold minFlips psarStep psarMax
        rangeMultiplier := by
  have hlen : c1.length = c2.length := by
    have hl := congrArg List.length h
    simpa using hl
  have hc : closesOf c1 = closesOf c2 := by
    have hm := congrArg (List.map (fun p : ℚ × ℚ × ℚ × ℚ => p.2.2.2)) h
    simpa [closesOf, List.map_map, stripVolume, Function.comp] using hm
  have hh : highsOf c1 = highsOf c2 := by
    have hm := congrArg (List.map (fun p : ℚ × ℚ × ℚ × ℚ => p.2.1)) h
    simpa [highsOf, List.map_map, stripVolume, Function.comp] using hm
  have hlo : lowsOf c1 = lowsOf c2 := by
    have hm := congrArg (List.map (fun p : ℚ × ℚ × ℚ × ℚ => p.2.2.1)) h
    simpa [lowsOf, List.map_map, stripVolume, Function.comp] using hm
  refine ⟨?_, ?_, ?_⟩
  · unfold psarSignal
    rw [hc, hh, hlo, hlen]
  · unfold psarAdxSignal
    rw [hc, hh, hlo, hlen]
  · unfold backtestStrategy backtestCore
    rw [hc, hh, hlo, hlen]

/-- Witness for volume blindness: equal prices, volumes 1, 2, 3 versus 7, 8, 9. -/
theorem core_volume_blind_witness :
    vc1.map stripVolume = vc2.map stripVolume ∧
    (psarSignal exLibW vc1 = psarSignal exLibW vc2 ∧
     psarAdxSignal exLibW vc1 AdxConfig.default = psarAdxSignal exLibW vc2 AdxConfig.default ∧
     backtestStrategy exLibW vc1 1 20 1 (1/50) (1/5) 0 =
       backtestStrategy exLibW vc2 1 20 1 (1/50) (1/5) 0) :=
  ⟨by decide,
   core_volume_blind exLibW vc1 vc2 AdxConfig.default 1 20 1 (1/50) (1/5) 0 (by decide)⟩

/-- C8: with fewer than three candles both strategy functions return the
neutral object with signal NONE, confidence 0, empty reason and skipped set,
independently of the indicator collaborator. -/
theorem short_input_returns_neutral (lib : IndicatorLib) (candles : List Candle)
    (cfg : AdxConfig) (h : candles.length < 3) :
    psarSignal lib candles = ⟨Sig.NONE, 0, "", true⟩ ∧
    psarAdxSignal lib candles cfg = ⟨Sig.NONE, 0, "", true⟩ := by
  constructor
  · unfold psarSignal psarSignalArrays
    rw [if_pos h]
    rfl
  · unfold psarAdxSignal psarAdxSignalArrays
    rw [if_pos h]
    rfl

/-- Witness for the short-input theorem at the empty candle list. -/
theorem short_input_returns_neutral_witness :
    ([] : List Candle).length < 3 ∧
    (psarSignal exLibW [] = ⟨Sig.NONE, 0, "", true⟩ ∧
     psarAdxSignal exLibW [] AdxConfig.default = ⟨Sig.NONE, 0, "", true⟩) :=
  ⟨by decide, short_input_returns_neutral exLibW [] AdxConfig.default (by decide)⟩

/-- C9: every index the batch loop iterates over leaves both the entry read
at i + 1 and the exit read at i + 1 + expiryBars inside the closes array. -/
theorem loop_reads_in_bounds (candles : List Candle) (expiryBars i : ℕ)
    (_he : 1 ≤ expiryBars) (hi : i ∈ loopIndices candles.length expiryBars) :
    i + 1 < (closesOf candles).length ∧
    i + 1 + expiryBars < (closesOf candles).length := by
  unfold loopIndices at hi
  have h := List.mem_range'_1.mp hi
  simp only [closesOf, List.length_map]
  omega

/-- Witness for the loop-bounds theorem: ten candles, one expiry bar, index 5. -/
theorem loop_reads_in_bounds_witness :
    1 ≤ 1 ∧ (5 : ℕ) ∈ loopIndices exW9.length 1 ∧
    (5 + 1 < (closesOf exW9).length ∧ 5 + 1 + 1 < (closesOf exW9).length) :=
  ⟨by decide, by decide, loop_reads_in_bounds exW9 1 5 (by decide) (by decide)⟩

/-- A non-positive multiplier disables the range filter. -/
theorem rangeRejects_nonpos (highs lows : List ℚ) (rm : ℚ) (i : ℕ) (h : rm ≤ 0) :
    rangeRejects highs lows rm i = false := by
  unfold rangeRejects
  rw [if_neg (not_lt.mpr h)]

/-- C3 (amended): an undefined aligned EMA200 or ADX value at the decision
bar does not fail the corresponding filter — both filters are bypassed and
the signal fires whenever the flip, continuation, persistence and range
conditions hold; undefined is treated as a pass. -/
theorem undefined_value_passes_filters (lib : IndicatorLib) (candles : List Candle)
    (cfg : AdxConfig) (d : Dir)
    (h3 : 3 ≤ candles.length)
    (hK : cfg.minFlips ≤ 1)
    (hR : cfg.rangeMultiplier ≤ 0)
    (hema : value_at (emaAlignedOf lib (closesOf candles) candles.length)
      (candles.length - 2) = none)
    (hadx : value_at (adxAlignedOf lib (highsOf candles) (lowsOf candles)
      (closesOf candles) candles.length) (candles.length - 2) = none)
    (hflip : flipDir ((closesOf candles).getD (candles.length - 3) 0)
      ((closesOf candles).getD (candles.length - 2) 0)
      ((psarAlignedOf lib cfg.psarStep cfg.psarMax (highsOf candles) (lowsOf candles)
        candles.length).getD (candles.length - 3) none)
      ((psarAlignedOf lib cfg.psarStep cfg.psarMax (highsOf candles) (lowsOf candles)
        candles.length).getD (candles.length - 2) none) = some d)
    (hcont : continuationOk d ((closesOf candles).getD (candles.length - 1) 0)
      ((closesOf candles).getD (candles.length - 2) 0) = true) :
    (psarAdxSignal lib candles cfg).skipped = false ∧
    (psarAdxSignal lib candles cfg).signal = d.toSig := by
  have hm : ¬ (1 < cfg.minFlips) := by omega
  have hrr : rangeRejects (highsOf candles) (lowsOf candles) cfg.rangeMultiplier
      (candles.length - 2) = false :=
    rangeRejects_nonpos _ _ _ _ hR
  unfold psarAdxSignal psarAdxSignalArrays
  rw [if_neg (by omega : ¬ candles.length < 3)]
  simp only [hflip, hcont, hrr, hema, hadx, emaRejects, adxRejects, hm,
    eq_self_iff_true, if_true, if_false, false_and, Bool.false_eq_true, and_self]

/-- Witness for the bypassed-filter theorem at three warm-up candles. -/
theorem undefined_value_passes_filters_witness :
    3 ≤ exCandles3.length ∧ AdxConfig.default.minFlips ≤ 1 ∧
    AdxConfig.default.rangeMultiplier ≤ 0 ∧
    value_at (emaAlignedOf exLib3 (closesOf exCandles3) exCandles3.length)
      (exCandles3.length - 2) = none ∧
    value_at (adxAlignedOf exLib3 (highsOf exCandles3) (lowsOf exCandles3)
      (closesOf exCandles3) exCandles3.length) (exCandles3.length - 2) = none ∧
    flipDir ((closesOf exCandles3).getD (exCandles3.length - 3) 0)
      ((closesOf exCandles3).getD (exCandles3.length - 2) 0)
      ((psarAlignedOf exLib3 AdxConfig.default.psarStep AdxConfig.default.psarMax
        (highsOf exCandles3) (lowsOf exCandles3) exCandles3.length).getD
        (exCandles3.length - 3) none)
      ((psarAlignedOf exLib3 AdxConfig.default.psarStep AdxConfig.default.psarMax
        (highsOf exCandles3) (lowsOf exCandles3) exCandles3.length).getD
        (exCandles3.length - 2) none) = some Dir.up ∧
    continuationOk Dir.up ((closesOf exCandles3).getD (exCandles3.length - 1) 0)
      ((closesOf exCandles3).getD (exCandles3.length - 2) 0) = true ∧
    ((psarAdxSignal exLib3 exCandles3 AdxConfig.default).skipped = false ∧
     (psarAdxSignal exLib3 exCandles3 AdxConfig.default).signal = Dir.up.toSig) :=
  ⟨by decide, by decide, by decide, by decide, by decide, by decide, by decide,
   undefined_value_passes_filters exLib3 exCandles3 AdxConfig.default Dir.up
     (by decide) (by decide) (by decide) (by decide) (by decide) (by decide) (by decide)⟩

/-- C3 counterexample: on three candles the EMA200 and ADX values at the
decision bar are still undefined, yet the signal fires (skipped is false,
direction UP) — an undefined value acting as a filter pass, where the claim
demands that the filter fails and no signal fires. -/
theorem undefined_value_signal_fires :
    value_at (emaAlignedOf exLib3 (closesOf exCandles3) exCandles3.length)
      (exCandles3.length - 2) = none ∧
    value_at (adxAlignedOf exLib3 (highsOf exCandles3) (lowsOf exCandles3)
      (closesOf exCandles3) exCandles3.length) (exCandles3.length - 2) = none ∧
    (psarAdxSignal exLib3 exCandles3 AdxConfig.default).skipped = false ∧
    (psarAdxSignal exLib3 exCandles3 AdxConfig.default).signal = Sig.UP := by
  decide

/-- C4: the persistence walk of `psarAdxSignal` counts bars on the side of
the cross bar (the post-flip side), so a strict flip always yields a count
of 1: with minFlips 2 the signal is rejected even though the closes sat on
the pre-flip side (below the PSAR of 50) for the ten preceding bars, while
the identical input with minFlips 1 fires. -/
theorem persistence_rejects_preflip_run :
    ((List.range 10).all (fun j => decide ((closesOf exCandles4).getD j 0 < 50))) = true ∧
    (psarAdxSignal exLib4 exCandles4 cfgK2).skipped = true ∧
    (psarAdxSignal exLib4 exCandles4 AdxConfig.default).skipped = false := by
  decide

/-- Splitting a list by a boolean predicate preserves its length. -/
theorem length_filter_bool (p : Trade → Bool) (l : List Trade) :
    (l.filter p).length + (l.filter (fun a => ! p a)).length = l.length := by
  induction l with
  | nil => rfl
  | cons a t ih =>
    cases h : p a <;> simp [List.filter_cons, h] <;> omega

/-- One triple-oscillator step preserves the trade ledger balance: resolved
plus still-open equals ever-created. -/
theorem tripleStep_conserves (lib : OscLib) (st : TripleState) (ic : ℕ × Candle)
    (h : st.total + st.openTrades.length = st.created) :
    (tripleStep lib st ic).total + (tripleStep lib st ic).openTrades.length =
      (tripleStep lib st ic).created := by
  have hsplit := length_filter_bool (fun t => decide (t.expiryIndex = ic.1)) st.openTrades
  unfold tripleStep
  dsimp only
  split
  · dsimp only
    omega
  · split
    · dsimp only
      omega
    · simp only [List.length_append, List.length_cons, List.length_nil]
      omega

/-- The ledger balance is preserved along any fold of triple-oscillator steps. -/
theorem tripleFold_conserves (lib : OscLib) :
    ∀ (l : List (ℕ × Candle)) (st : TripleState),
      st.total + st.openTrades.length = st.created →
      (l.foldl (tripleStep lib) st).total + (l.foldl (tripleStep lib) st).openTrades.length =
        (l.foldl (tripleStep lib) st).created := by
  intro l
  induction l with
  | nil => intro st h; exact h
  | cons ic t ih =>
    intro st h
    exact ih (tripleStep lib st ic) (tripleStep_conserves lib st ic h)

/-- C5 (amended): in the triple-oscillator backtest, total_trades equals the
number of Trades ever created minus the trades still open when the input
ends — every trade whose expiry bar lies within the input is resolved and
counted exactly once, and a trade whose expiry bar lies beyond the last
input bar is created but never counted. -/
theorem total_counts_resolved_trades (lib : OscLib) (data : List Candle) :
    (tripleBacktest lib data).total + (tripleBacktest lib data).openTrades.length =
      (tripleBacktest lib data).created := by
  unfold tripleBacktest
  exact tripleFold_conserves lib data.enum ⟨[], [], 0, 0, 0⟩ rfl

set_option maxRecDepth 100000 in
/-- C5 counterexample: a signal fires at the last bar (index 199), creating
one trade whose expiry bar 200 lies beyond the input, and the final
total_trades is 0, not 1 — total_trades counts resolutions, not creations. -/
theorem trade_created_not_counted :
    (tripleBacktest exOsc exData).created = 1 ∧
    (tripleBacktest exOsc exData).total = 0 ∧
    (tripleBacktest exOsc exData).openTrades.length = 1 := by
  refine ⟨?_, ?_, ?_⟩ <;> rfl

/-- Every trend-strategy step either keeps the accumulator or appends a
single signal carrying the current bar index. -/
theorem trendStep_eq_or_append (closes fastEma slowEma trendEma adxValues : List ℚ)
    (fo so tro ao : ℕ) (θ : ℚ) (acc : List TrendSignal) (i : ℕ) :
    trendStep closes fastEma slowEma trendEma adxValues fo so tro ao θ acc i = acc ∨
    ∃ t : TrendSignal, t.index = i ∧
      trendStep closes fastEma slowEma trendEma adxValues fo so tro ao θ acc i =
        acc ++ [t] := by
  unfold trendStep
  split
  · exact Or.inl rfl
  · dsimp only
    split
    · exact Or.inl rfl
    · split
      · split
        · rename_i hbull hbear
          exact absurd hbear.1.2 (not_lt.mpr hbull.1.2.le)
        · exact Or.inr ⟨_, rfl, rfl⟩
      · split
        · exact Or.inr ⟨_, rfl, rfl⟩
        · exact Or.inl rfl

/-- Along the trend-strategy fold every accumulated signal keeps an index
below the bars already visited, and no index ever appears twice. -/
theorem trendFold_single_index (closes fastEma slowEma trendEma adxValues : List ℚ)
    (fo so tro ao : ℕ) (θ : ℚ) :
    ∀ (k s : ℕ) (acc : List TrendSignal),
      (∀ t ∈ acc, t.index < s) →
      (∀ j, acc.countP (fun t => decide (t.index = j)) ≤ 1) →
      (∀ t ∈ (List.range' s k).foldl
          (trendStep closes fastEma slowEma trendEma adxValues fo so tro ao θ) acc,
        t.index < s + k) ∧
      (∀ j, ((List.range' s k).foldl
          (trendStep closes fastEma slowEma trendEma adxValues fo so tro ao θ)
          acc).countP (fun t => decide (t.index = j)) ≤ 1) := by
  intro k
  induction k with
  | zero =>
    intro s acc h1 h2
    refine ⟨fun t ht => ?_, h2⟩
    have := h1 t ht
    omega
  | succ n ih =>
    intro s acc h1 h2
    rw [List.range'_succ]
    simp only [List.foldl_cons]
    rcases trendStep_eq_or_append closes fastEma slowEma trendEma adxValues fo so tro ao θ
        acc s with heq | ⟨t, hti, heq⟩
    · rw [heq]
      have hres := ih (s + 1) acc
        (fun t ht => by have := h1 t ht; omega) h2
      exact ⟨fun t ht => by have := hres.1 t ht; omega, hres.2⟩
    · rw [heq]
      have hmem : ∀ u ∈ acc ++ [t], u.index < s + 1 := by
        intro u hu
        rcases List.mem_append.mp hu with h | h
        · have := h1 u h
          omega
        · have : u = t := by simpa using h
          subst this
          omega
      have hcnt : ∀ j, ((acc ++ [t]).countP (fun u => decide (u.index = j))) ≤ 1 := by
        intro j
        rw [List.countP_append]
        by_cases hj : t.index = j
        · have hzero : acc.countP (fun u => decide (u.index = j)) = 0 := by
            rw [List.countP_eq_zero]
            intro u hu
            have := h1 u hu
            simp only [decide_eq_true_eq]
            omega
          simp [List.countP_cons, hj, hzero]
        · have hone : ([t].countP (fun u => decide (u.index = j))) = 0 := by
            simp [List.countP_cons, hj]
          have := h2 j
          omega
      have hres := ih (s + 1) (acc ++ [t]) hmem hcnt
      exact ⟨fun u hu => by have := hres.1 u hu; omega, hres.2⟩

/-- C10: the bullish and bearish crossover conditions are mutually exclusive
(they would force the current fast EMA both above and below the current slow
EMA), and consequently `trendStrategy5m` emits at most one signal for any
bar index. -/
theorem trend_single_signal_per_bar (lib : TrendLib) (candles : List Candle)
    (opts : TrendOpts) (i : ℕ) :
    (∀ prevFast prevSlow currFast currSlow : ℚ,
      ¬ (bullishCross prevFast prevSlow currFast currSlow ∧
         bearishCross prevFast prevSlow currFast currSlow)) ∧
    ((trendStrategy5m lib candles opts).countP (fun t => decide (t.index = i)) ≤ 1) := by
  constructor
  · rintro pf ps cf cs ⟨⟨-, h2⟩, ⟨-, h4⟩⟩
    exact absurd h4 (not_lt.mpr h2.le)
  · unfold trendStrategy5m
    exact (trendFold_single_index _ _ _ _ _ _ _ _ _ _
      (candles.length - 5 - 1) 1 [] (by simp) (by simp)).2 i
